import Mathlib

/-!
Verification of the SSH brute-force defender in `problem-4/level-1.py`.

The development shallowly embeds the three components the claims are about:

* `SecurityMonitor` with `record_failure` (sliding-window detector,
  lines 286-339 of the source);
* `FirewallController.block_ip` / `_block_with_iptables` (lines 71-134),
  with the external world (installed rules, command exit codes) passed in
  explicitly and the number of executed external commands returned;
* the syslog timestamp year-rollover resolution of
  `SSHLogParser._process_log_entry` (lines 255-266).

Python `datetime` values are modelled as either plain `Int` seconds (for
the detector, which only compares timestamps) or as a `PyDateTime` record
of calendar fields (for the parser, which manipulates the year field).
-/

/-- A Python `defaultdict(list)` keyed by IP address: association list from
address to its list of failure timestamps (in seconds, as `Int`).
A missing key reads as the empty list. -/
def lookupHist (l : List (String × List Int)) (ip : String) : List Int :=
  match l.find? (fun p => p.1 == ip) with
  | some p => p.2
  | none => []

/-- Assignment `failures_by_ip[ip] = v` on the association list. -/
def setHist (l : List (String × List Int)) (ip : String) (v : List Int) :
    List (String × List Int) :=
  match l with
  | [] => [(ip, v)]
  | p :: rest => if p.1 == ip then (ip, v) :: rest else p :: setHist rest ip v

/-- State of `SecurityMonitor` (source lines 286-302).  The firewall
collaborator is not part of the state here; it is passed to
`record_failure` as an `Option Bool` (see there). -/
structure SecurityMonitor where
  failure_threshold : Int
  time_window : Int
  safe_ips : List String
  failures_by_ip : List (String × List Int)
  blocked_ips : List String
deriving DecidableEq, Repr

/-- `SecurityMonitor.__init__` (lines 289-302): stores the configuration
unchanged — the source performs no validation of threshold or window —
and starts with empty failure history and empty blocked set. -/
def SecurityMonitor.init (failure_threshold time_window : Int)
    (safe_ips : List String) : SecurityMonitor :=
  { failure_threshold := failure_threshold
    time_window := time_window
    safe_ips := safe_ips
    failures_by_ip := []
    blocked_ips := [] }

/-- The retained history right after the append-and-prune steps of
`record_failure` (lines 319-324): append `ts`, then keep exactly the
entries strictly newer than `now - time_window`. -/
def prunedHist (m : SecurityMonitor) (ip : String) (ts now : Int) : List Int :=
  (lookupHist m.failures_by_ip ip ++ [ts]).filter
    (fun t => decide (now - m.time_window < t))

/-- `SecurityMonitor.record_failure` (lines 308-339).

`fw` stands for the firewall collaborator at this call: `none` models
`self.firewall is None`, `some b` models a firewall whose `block_ip ip`
returns `b`.  `now` is the value `datetime.now()` takes during the call.

The returned `Bool` reports whether the threshold branch fired (the
source's warning / block attempt, i.e. a `BlockDecision`). -/
def record_failure (m : SecurityMonitor) (fw : Option Bool) (ip : String)
    (ts now : Int) : SecurityMonitor × Bool :=
  if ip ∈ m.safe_ips then (m, false)
  else if ip ∈ m.blocked_ips then (m, false)
  else
    let hist := prunedHist m ip ts now
    let m1 : SecurityMonitor :=
      { m with failures_by_ip := setHist m.failures_by_ip ip hist }
    if m.failure_threshold ≤ (hist.length : Int) then
      match fw with
      | some true =>
          ({ m1 with
              failures_by_ip := setHist m1.failures_by_ip ip []
              blocked_ips := ip :: m1.blocked_ips }, true)
      | _ => (m1, true)
    else (m1, false)

/-- The per-call block decisions along a sequence of `record_failure`
calls for one address; each call supplies `(ts, now)`. -/
def emitList (fw : Option Bool) (ip : String) :
    SecurityMonitor → List (Int × Int) → List Bool
  | _, [] => []
  | m, c :: rest =>
      (record_failure m fw ip c.1 c.2).2 ::
        emitList fw ip (record_failure m fw ip c.1 c.2).1 rest

/-- The monitor state after a sequence of `record_failure` calls for one
address. -/
def finalState (fw : Option Bool) (ip : String) :
    SecurityMonitor → List (Int × Int) → SecurityMonitor
  | m, [] => m
  | m, c :: rest => finalState fw ip (record_failure m fw ip c.1 c.2).1 rest

/-- The count of retained timestamps strictly newer than `now - window`
at call `i` of the sequence: the length of the appended-and-pruned history
the detector inspects against the threshold during that call. -/
def prunedCount (m : SecurityMonitor) (ip : String)
    (calls : List (Int × Int)) (i : Nat) : Nat :=
  (prunedHist (finalState (some true) ip m (calls.take i)) ip
    (calls.getD i (0, 0)).1 (calls.getD i (0, 0)).2).length

/-- `FirewallController._block_with_iptables` (lines 106-134), with the
external world made explicit: `rules` is the set of source addresses that
currently carry an `iptables -A INPUT -s ip -j DROP` rule (read by the
existence check of lines 110-111) and `addOk` is the exit status the
`iptables -A` command would report.  Result: the rule set afterwards, the
returned success flag, and how many add-rule commands were executed. -/
def blockWithIptables (rules : List String) (addOk : Bool) (ip : String) :
    List String × Bool × Nat :=
  if ip ∈ rules then (rules, true, 0)
  else if addOk then (ip :: rules, true, 1)
  else (rules, false, 1)

/-- `FirewallController.block_ip` (lines 71-83): simulation mode returns
success immediately; otherwise dispatch on the detected firewall system
("ufw" / "iptables" / anything else meaning none found).  The final `Nat`
counts every external command the call executes (the `ufw deny` command,
the iptables existence check, the iptables add command); `cmdOk` is the
exit status of whichever real firewall command runs. -/
def block_ip (simulation_mode : Bool) (firewall_system : String)
    (rules : List String) (cmdOk : Bool) (ip : String) :
    List String × Bool × Nat :=
  if simulation_mode then (rules, true, 0)
  else if firewall_system == "ufw" then (rules, cmdOk, 1)
  else if firewall_system == "iptables" then
    match blockWithIptables rules cmdOk ip with
    | (rules2, ok, adds) => (rules2, ok, 1 + adds)
  else (rules, false, 0)

/-- A Python `datetime` as its calendar fields, as produced by
`strptime(..., "%Y %b %d %H:%M:%S")`. -/
structure PyDateTime where
  year : Nat
  month : Nat
  day : Nat
  hour : Nat
  minute : Nat
  second : Nat
deriving DecidableEq, Repr

/-- Gregorian leap-year rule. -/
def isLeapYear (y : Nat) : Bool :=
  (y % 4 == 0 && y % 100 != 0) || (y % 400 == 0)

/-- Days in the months strictly before month `m` of a year. -/
def cumDaysBeforeMonth (leap : Bool) (m : Nat) : Nat :=
  let base :=
    match m with
    | 1 => 0 | 2 => 31 | 3 => 59 | 4 => 90 | 5 => 120 | 6 => 151
    | 7 => 181 | 8 => 212 | 9 => 243 | 10 => 273 | 11 => 304 | 12 => 334
    | _ => 0
  if 2 < m ∧ leap = true then base + 1 else base

/-- Days in the years strictly before year `y` (proleptic Gregorian,
counted from year 1). -/
def daysBeforeYear (y : Nat) : Nat :=
  365 * (y - 1) + (y - 1) / 4 - (y - 1) / 100 + (y - 1) / 400

/-- Total seconds of a `PyDateTime` since the epoch of year 1.  Python
compares `datetime` values field-lexicographically; on valid dates that
order coincides with this second count, and `timedelta(days=1)` is
86400 seconds. -/
def toSecs (d : PyDateTime) : Nat :=
  86400 * (daysBeforeYear d.year + cumDaysBeforeMonth (isLeapYear d.year) d.month
      + (d.day - 1))
    + 3600 * d.hour + 60 * d.minute + d.second

/-- Days in a month of a given year, as Python's `datetime` validates
them. -/
def daysInMonth (y mo : Nat) : Nat :=
  match mo with
  | 1 => 31 | 2 => if isLeapYear y then 29 else 28
  | 3 => 31 | 4 => 30 | 5 => 31 | 6 => 30 | 7 => 31
  | 8 => 31 | 9 => 30 | 10 => 31 | 11 => 30 | 12 => 31
  | _ => 0

/-- Python `datetime` date-field validation: month in 1..12 and day in
1..`daysInMonth`.  `datetime.replace(year=...)` re-runs this check on the
new combination and raises `ValueError` when it fails. -/
def dateValid (y mo d : Nat) : Bool :=
  decide (1 ≤ mo) && decide (mo ≤ 12) && decide (1 ≤ d) &&
    decide (d ≤ daysInMonth y mo)

/-- The auth-log branch of `SSHLogParser._process_log_entry`
(lines 255-266): the syslog timestamp carries no year, so the current year
(of `now`) is injected; if the resulting timestamp is more than one day in
the future relative to `now`, the year is decremented by one via
`timestamp.replace(year=current_year - 1)`.  That `replace` raises
`ValueError` when the date does not exist in the decremented year (a
parsed Feb 29 of a leap current year); the enclosing handler at lines
272-273 turns this into a parse warning and produces no event, modelled
here as `none`.  The `strptime` step is abstracted to its
already-extracted calendar components. -/
def resolveSyslogTimestamp (now : PyDateTime)
    (month day hour minute second : Nat) : Option PyDateTime :=
  let t : PyDateTime := ⟨now.year, month, day, hour, minute, second⟩
  if toSecs now + 86400 < toSecs t then
    if dateValid (now.year - 1) month day = true then
      some { t with year := now.year - 1 }
    else none
  else some t

/-! ### Step-level lemmas about `record_failure` -/

lemma record_failure_of_safe (m : SecurityMonitor) (fw : Option Bool)
    (ip : String) (ts now : Int) (h : ip ∈ m.safe_ips) :
    record_failure m fw ip ts now = (m, false) := by
  simp [record_failure, h]

lemma record_failure_of_blocked (m : SecurityMonitor) (fw : Option Bool)
    (ip : String) (ts now : Int) (h : ip ∈ m.blocked_ips) :
    record_failure m fw ip ts now = (m, false) := by
  by_cases hs : ip ∈ m.safe_ips
  · simp [record_failure, hs]
  · simp [record_failure, hs, h]

lemma record_failure_emit_true (m : SecurityMonitor) (fw : Option Bool)
    (ip : String) (ts now : Int) (hs : ip ∉ m.safe_ips) (hb : ip ∉ m.blocked_ips)
    (hth : m.failure_threshold ≤ ((prunedHist m ip ts now).length : Int)) :
    (record_failure m fw ip ts now).2 = true := by
  rcases fw with _ | b
  · simp [record_failure, hs, hb, hth]
  · cases b <;> simp [record_failure, hs, hb, hth]

lemma record_failure_of_below (m : SecurityMonitor) (fw : Option Bool)
    (ip : String) (ts now : Int) (hs : ip ∉ m.safe_ips) (hb : ip ∉ m.blocked_ips)
    (hth : ¬ m.failure_threshold ≤ ((prunedHist m ip ts now).length : Int)) :
    record_failure m fw ip ts now =
      ({ m with failures_by_ip := setHist m.failures_by_ip ip (prunedHist m ip ts now) },
        false) := by
  simp [record_failure, hs, hb, hth]

lemma record_failure_success_state (m : SecurityMonitor) (ip : String)
    (ts now : Int) (hs : ip ∉ m.safe_ips) (hb : ip ∉ m.blocked_ips)
    (hth : m.failure_threshold ≤ ((prunedHist m ip ts now).length : Int)) :
    record_failure m (some true) ip ts now =
      ({ m with
          failures_by_ip :=
            setHist (setHist m.failures_by_ip ip (prunedHist m ip ts now)) ip []
          blocked_ips := ip :: m.blocked_ips }, true) := by
  simp [record_failure, hs, hb, hth]

lemma record_failure_failed_state (m : SecurityMonitor) (ip : String)
    (ts now : Int) (hs : ip ∉ m.safe_ips) (hb : ip ∉ m.blocked_ips)
    (hth : m.failure_threshold ≤ ((prunedHist m ip ts now).length : Int)) :
    record_failure m (some false) ip ts now =
      ({ m with failures_by_ip := setHist m.failures_by_ip ip (prunedHist m ip ts now) },
        true) := by
  simp [record_failure, hs, hb, hth]

/-- `record_failure` never changes the configuration fields. -/
lemma record_failure_config (m : SecurityMonitor) (fw : Option Bool)
    (ip : String) (ts now : Int) :
    (record_failure m fw ip ts now).1.safe_ips = m.safe_ips ∧
    (record_failure m fw ip ts now).1.failure_threshold = m.failure_threshold ∧
    (record_failure m fw ip ts now).1.time_window = m.time_window := by
  by_cases hs : ip ∈ m.safe_ips
  · rw [record_failure_of_safe m fw ip ts now hs]; exact ⟨rfl, rfl, rfl⟩
  by_cases hb : ip ∈ m.blocked_ips
  · rw [record_failure_of_blocked m fw ip ts now hb]; exact ⟨rfl, rfl, rfl⟩
  by_cases hth : m.failure_threshold ≤ ((prunedHist m ip ts now).length : Int)
  · rcases fw with _ | b
    · simp [record_failure, hs, hb, hth]
    · cases b <;> simp [record_failure, hs, hb, hth]
  · rw [record_failure_of_below m fw ip ts now hs hb hth]; exact ⟨rfl, rfl, rfl⟩

/-- No call to `record_failure` ever removes an address from the blocked
set: the source only does `blocked_ips.add`. -/
lemma record_failure_blocked_mono (m : SecurityMonitor) (fw : Option Bool)
    (ip j : String) (ts now : Int) (h : j ∈ m.blocked_ips) :
    j ∈ (record_failure m fw ip ts now).1.blocked_ips := by
  by_cases hs : ip ∈ m.safe_ips
  · rw [record_failure_of_safe m fw ip ts now hs]; exact h
  by_cases hb : ip ∈ m.blocked_ips
  · rw [record_failure_of_blocked m fw ip ts now hb]; exact h
  by_cases hth : m.failure_threshold ≤ ((prunedHist m ip ts now).length : Int)
  · rcases fw with _ | b
    · simp [record_failure, hs, hb, hth]; exact h
    · cases b
      · simp [record_failure, hs, hb, hth]; exact h
      · simp [record_failure, hs, hb, hth]; exact Or.inr h
  · rw [record_failure_of_below m fw ip ts now hs hb hth]; exact h

/-- With an always-succeeding firewall, the called address is in the
blocked set after the call exactly when the block decision fired. -/
lemma record_failure_blocked_iff (m : SecurityMonitor) (ip : String)
    (ts now : Int) (hs : ip ∉ m.safe_ips) (hb : ip ∉ m.blocked_ips) :
    (ip ∈ (record_failure m (some true) ip ts now).1.blocked_ips ↔
      (record_failure m (some true) ip ts now).2 = true) := by
  by_cases hth : m.failure_threshold ≤ ((prunedHist m ip ts now).length : Int)
  · rw [record_failure_success_state m ip ts now hs hb hth]
    simp
  · rw [record_failure_of_below m (some true) ip ts now hs hb hth]
    simp [hb]

/-! ### Run-level lemmas -/

lemma emitList_cons (fw : Option Bool) (ip : String) (m : SecurityMonitor)
    (c : Int × Int) (rest : List (Int × Int)) :
    emitList fw ip m (c :: rest) =
      (record_failure m fw ip c.1 c.2).2 ::
        emitList fw ip (record_failure m fw ip c.1 c.2).1 rest := rfl

lemma finalState_cons (fw : Option Bool) (ip : String) (m : SecurityMonitor)
    (c : Int × Int) (rest : List (Int × Int)) :
    finalState fw ip m (c :: rest) =
      finalState fw ip (record_failure m fw ip c.1 c.2).1 rest := rfl

lemma emitList_of_blocked (fw : Option Bool) (ip : String) :
    ∀ (calls : List (Int × Int)) (m : SecurityMonitor),
      ip ∈ m.blocked_ips →
      emitList fw ip m calls = List.replicate calls.length false
  | [], _, _ => rfl
  | c :: rest, m, h => by
      rw [emitList_cons, record_failure_of_blocked m fw ip c.1 c.2 h]
      simp [emitList_of_blocked fw ip rest m h, List.replicate]

lemma finalState_of_blocked (fw : Option Bool) (ip : String) :
    ∀ (calls : List (Int × Int)) (m : SecurityMonitor),
      ip ∈ m.blocked_ips → finalState fw ip m calls = m
  | [], _, _ => rfl
  | c :: rest, m, h => by
      rw [finalState_cons, record_failure_of_blocked m fw ip c.1 c.2 h]
      exact finalState_of_blocked fw ip rest m h

lemma emitList_of_safe (fw : Option Bool) (ip : String) :
    ∀ (calls : List (Int × Int)) (m : SecurityMonitor),
      ip ∈ m.safe_ips →
      emitList fw ip m calls = List.replicate calls.length false
  | [], _, _ => rfl
  | c :: rest, m, h => by
      rw [emitList_cons, record_failure_of_safe m fw ip c.1 c.2 h]
      simp [emitList_of_safe fw ip rest m h, List.replicate]

lemma finalState_of_safe (fw : Option Bool) (ip : String) :
    ∀ (calls : List (Int × Int)) (m : SecurityMonitor),
      ip ∈ m.safe_ips → finalState fw ip m calls = m
  | [], _, _ => rfl
  | c :: rest, m, h => by
      rw [finalState_cons, record_failure_of_safe m fw ip c.1 c.2 h]
      exact finalState_of_safe fw ip rest m h

lemma getD_replicate_false (n k : Nat) :
    (List.replicate n false).getD k false = false := by
  induction n generalizing k with
  | zero => simp [List.replicate]
  | succ n ih =>
      cases k with
      | zero => simp [List.replicate]
      | succ k => simp [List.replicate, ih k]

lemma prunedCount_zero (m : SecurityMonitor) (ip : String)
    (c : Int × Int) (rest : List (Int × Int)) :
    prunedCount m ip (c :: rest) 0 = (prunedHist m ip c.1 c.2).length := rfl

lemma prunedCount_succ (m : SecurityMonitor) (ip : String)
    (c : Int × Int) (rest : List (Int × Int)) (k : Nat) :
    prunedCount m ip (c :: rest) (k + 1) =
      prunedCount (record_failure m (some true) ip c.1 c.2).1 ip rest k := rfl

/-- Core of claim C1: along any run against an always-succeeding firewall,
the decision at call `i` fires exactly when the retained count reaches the
threshold at `i` and no earlier call fired. -/
lemma emit_iff_first_threshold (ip : String) :
    ∀ (calls : List (Int × Int)) (m : SecurityMonitor),
      ip ∉ m.safe_ips → ip ∉ m.blocked_ips → ∀ i, i < calls.length →
      ((emitList (some true) ip m calls).getD i false = true ↔
        (m.failure_threshold ≤ (prunedCount m ip calls i : Int) ∧
          ∀ j, j < i → (emitList (some true) ip m calls).getD j false = false)) := by
  intro calls
  induction calls with
  | nil => intro m _ _ i hi; simp at hi
  | cons c rest IH =>
    intro m hs hb i hi
    by_cases hth : m.failure_threshold ≤ ((prunedHist m ip c.1 c.2).length : Int)
    · -- the decision fires at the head call and the address gets blocked
      have he : (record_failure m (some true) ip c.1 c.2).2 = true :=
        record_failure_emit_true m (some true) ip c.1 c.2 hs hb hth
      have hbm : ip ∈ (record_failure m (some true) ip c.1 c.2).1.blocked_ips :=
        (record_failure_blocked_iff m ip c.1 c.2 hs hb).2 he
      have htail :
          emitList (some true) ip (record_failure m (some true) ip c.1 c.2).1 rest =
            List.replicate rest.length false :=
        emitList_of_blocked _ _ rest _ hbm
      cases i with
      | zero =>
        rw [emitList_cons, htail]
        constructor
        · intro _
          refine ⟨?_, fun j hj => absurd hj (Nat.not_lt_zero j)⟩
          rw [prunedCount_zero]; exact hth
        · intro _
          simp [he]
      | succ k =>
        rw [emitList_cons, htail]
        constructor
        · intro hcontr
          rw [List.getD_cons_succ, getD_replicate_false] at hcontr
          exact absurd hcontr (by simp)
        · rintro ⟨-, hall⟩
          have h0 := hall 0 (Nat.succ_pos k)
          rw [List.getD_cons_zero, he] at h0
          exact absurd h0 (by simp)
    · -- below the threshold at the head call: state advances, recurse
      have hstep := record_failure_of_below m (some true) ip c.1 c.2 hs hb hth
      have hst1 : (record_failure m (some true) ip c.1 c.2).1 =
          { m with failures_by_ip := setHist m.failures_by_ip ip (prunedHist m ip c.1 c.2) } := by
        rw [hstep]
      have hsnd : (record_failure m (some true) ip c.1 c.2).2 = false := by
        rw [hstep]
      cases i with
      | zero =>
        rw [emitList_cons]
        simp only [hsnd, List.getD_cons_zero]
        constructor
        · intro h; exact absurd h (by simp)
        · rintro ⟨h1, -⟩
          rw [prunedCount_zero] at h1
          exact absurd h1 hth
      | succ k =>
        have hk : k < rest.length := Nat.lt_of_succ_lt_succ hi
        have IH' := IH
          { m with failures_by_ip := setHist m.failures_by_ip ip (prunedHist m ip c.1 c.2) }
          hs hb k hk
        rw [emitList_cons]
        simp only [hsnd, hst1, List.getD_cons_succ]
        rw [prunedCount_succ, hst1]
        constructor
        · intro h
          obtain ⟨h1, h2⟩ := IH'.1 h
          refine ⟨h1, fun j hj => ?_⟩
          cases j with
          | zero => simp
          | succ j' => rw [List.getD_cons_succ]; exact h2 j' (Nat.lt_of_succ_lt_succ hj)
        · rintro ⟨h1, h2⟩
          refine IH'.2 ⟨h1, fun j hj => ?_⟩
          have hj1 := h2 (j + 1) (Nat.succ_lt_succ hj)
          rwa [List.getD_cons_succ] at hj1

/-- Along a run against an always-succeeding firewall, the decision fires
at most once. -/
lemma emit_count_le_one (ip : String) :
    ∀ (calls : List (Int × Int)) (m : SecurityMonitor),
      ip ∉ m.safe_ips → ip ∉ m.blocked_ips →
      (emitList (some true) ip m calls).count true ≤ 1 := by
  intro calls
  induction calls with
  | nil => intro m _ _; simp [emitList]
  | cons c rest IH =>
    intro m hs hb
    by_cases hth : m.failure_threshold ≤ ((prunedHist m ip c.1 c.2).length : Int)
    · have he : (record_failure m (some true) ip c.1 c.2).2 = true :=
        record_failure_emit_true m (some true) ip c.1 c.2 hs hb hth
      have hbm : ip ∈ (record_failure m (some true) ip c.1 c.2).1.blocked_ips :=
        (record_failure_blocked_iff m ip c.1 c.2 hs hb).2 he
      rw [emitList_cons, emitList_of_blocked _ _ rest _ hbm, he]
      simp [List.count_cons, List.count_replicate]
    · have hstep := record_failure_of_below m (some true) ip c.1 c.2 hs hb hth
      have hst1 : (record_failure m (some true) ip c.1 c.2).1 =
          { m with failures_by_ip := setHist m.failures_by_ip ip (prunedHist m ip c.1 c.2) } := by
        rw [hstep]
      have hsnd : (record_failure m (some true) ip c.1 c.2).2 = false := by
        rw [hstep]
      rw [emitList_cons, hsnd, hst1]
      have hcount : ∀ l : List Bool, (false :: l).count true = l.count true := by
        intro l; simp [List.count_cons]
      rw [hcount]
      exact IH
        { m with failures_by_ip := setHist m.failures_by_ip ip (prunedHist m ip c.1 c.2) }
        hs hb

lemma lookupHist_setHist (l : List (String × List Int)) (ip : String)
    (v : List Int) : lookupHist (setHist l ip v) ip = v := by
  induction l with
  | nil => simp [setHist, lookupHist]
  | cons p rest ih =>
      by_cases hp : p.1 = ip
      · simp [setHist, lookupHist, hp]
      · have hsh : setHist (p :: rest) ip v = p :: setHist rest ip v := by
          simp [setHist, hp]
        have hpb : ¬ ((fun q : String × List Int => q.1 == ip) p = true) := by
          simpa using hp
        have hfind : lookupHist (p :: setHist rest ip v) ip =
            lookupHist (setHist rest ip v) ip := by
          unfold lookupHist
          rw [@List.find?_cons_of_neg _ (fun q : String × List Int => q.1 == ip) p
            (setHist rest ip v) hpb]
        rw [hsh, hfind, ih]

/-! ### Detector claim theorems -/

/-- C1: For every non-whitelisted, not-yet-blocked address and every
sequence of `record_failure` calls for it (against a firewall whose
`block_ip` succeeds), a block decision fires exactly at the first call
after which the number of retained timestamps strictly newer than
`now - window` reaches the threshold — never at an earlier call — and at
most once per continuous blocked epoch (here: at most once overall,
since nothing ever unblocks). -/
theorem c1_block_at_first_threshold (m : SecurityMonitor) (ip : String)
    (calls : List (Int × Int)) (hs : ip ∉ m.safe_ips) (hb : ip ∉ m.blocked_ips) :
    (∀ i, i < calls.length →
      ((emitList (some true) ip m calls).getD i false = true ↔
        (m.failure_threshold ≤ (prunedCount m ip calls i : Int) ∧
          ∀ j, j < i → (emitList (some true) ip m calls).getD j false = false))) ∧
    (emitList (some true) ip m calls).count true ≤ 1 :=
  ⟨fun i hi => emit_iff_first_threshold ip calls m hs hb i hi,
   emit_count_le_one ip calls m hs hb⟩

theorem c1_block_at_first_threshold_witness :
    ("203.0.113.7" ∉ (SecurityMonitor.init 2 60 ["198.51.100.1"]).safe_ips) ∧
    ("203.0.113.7" ∉ (SecurityMonitor.init 2 60 ["198.51.100.1"]).blocked_ips) ∧
    ((∀ i, i < ([(0, 0), (5, 5), (30, 30)] : List (Int × Int)).length →
      ((emitList (some true) "203.0.113.7" (SecurityMonitor.init 2 60 ["198.51.100.1"])
          ([(0, 0), (5, 5), (30, 30)] : List (Int × Int))).getD i false = true ↔
        ((SecurityMonitor.init 2 60 ["198.51.100.1"]).failure_threshold ≤
            (prunedCount (SecurityMonitor.init 2 60 ["198.51.100.1"]) "203.0.113.7"
              ([(0, 0), (5, 5), (30, 30)] : List (Int × Int)) i : Int) ∧
          ∀ j, j < i →
            (emitList (some true) "203.0.113.7" (SecurityMonitor.init 2 60 ["198.51.100.1"])
              ([(0, 0), (5, 5), (30, 30)] : List (Int × Int))).getD j false = false))) ∧
     (emitList (some true) "203.0.113.7" (SecurityMonitor.init 2 60 ["198.51.100.1"])
        ([(0, 0), (5, 5), (30, 30)] : List (Int × Int))).count true ≤ 1) :=
  ⟨by decide, by decide,
   c1_block_at_first_threshold (SecurityMonitor.init 2 60 ["198.51.100.1"]) "203.0.113.7"
     ([(0, 0), (5, 5), (30, 30)] : List (Int × Int)) (by decide) (by decide)⟩

/-- C3: For an address already in the blocked set, every further
`record_failure` call for it is a no-op — the whole state, in particular
its (empty) history, is unchanged and no further decision fires — and no
detector operation ever removes any address from the blocked set. -/
theorem c3_blocked_noop (m : SecurityMonitor) (fw : Option Bool) (ip : String)
    (calls : List (Int × Int)) (h : ip ∈ m.blocked_ips) :
    finalState fw ip m calls = m ∧
    emitList fw ip m calls = List.replicate calls.length false ∧
    ∀ (m2 : SecurityMonitor) (fw2 : Option Bool) (ip2 j : String) (ts now : Int),
      j ∈ m2.blocked_ips → j ∈ (record_failure m2 fw2 ip2 ts now).1.blocked_ips :=
  ⟨finalState_of_blocked fw ip calls m h, emitList_of_blocked fw ip calls m h,
   fun m2 fw2 ip2 j ts now hj => record_failure_blocked_mono m2 fw2 ip2 j ts now hj⟩

theorem c3_blocked_noop_witness :
    ("203.0.113.5" ∈
      (⟨3, 60, [], [], ["203.0.113.5"]⟩ : SecurityMonitor).blocked_ips) ∧
    (finalState (some true) "203.0.113.5"
        (⟨3, 60, [], [], ["203.0.113.5"]⟩ : SecurityMonitor)
        ([(0, 0), (1, 1)] : List (Int × Int)) =
      (⟨3, 60, [], [], ["203.0.113.5"]⟩ : SecurityMonitor) ∧
     emitList (some true) "203.0.113.5"
        (⟨3, 60, [], [], ["203.0.113.5"]⟩ : SecurityMonitor)
        ([(0, 0), (1, 1)] : List (Int × Int)) =
      List.replicate ([(0, 0), (1, 1)] : List (Int × Int)).length false ∧
     ∀ (m2 : SecurityMonitor) (fw2 : Option Bool) (ip2 j : String) (ts now : Int),
       j ∈ m2.blocked_ips → j ∈ (record_failure m2 fw2 ip2 ts now).1.blocked_ips) :=
  ⟨by decide,
   c3_blocked_noop (⟨3, 60, [], [], ["203.0.113.5"]⟩ : SecurityMonitor) (some true)
     "203.0.113.5" ([(0, 0), (1, 1)] : List (Int × Int)) (by decide)⟩

/-- C4: A whitelisted address is never counted, never modified and never
blocked: every `record_failure` call for it leaves the monitor state
untouched, fires no decision, and so the address never enters the blocked
set no matter how many failures arrive. -/
theorem c4_whitelist_immune (m : SecurityMonitor) (fw : Option Bool)
    (ip : String) (calls : List (Int × Int)) (h : ip ∈ m.safe_ips) :
    finalState fw ip m calls = m ∧
    emitList fw ip m calls = List.replicate calls.length false ∧
    (ip ∉ m.blocked_ips → ip ∉ (finalState fw ip m calls).blocked_ips) ∧
    lookupHist (finalState fw ip m calls).failures_by_ip ip =
      lookupHist m.failures_by_ip ip := by
  have h1 := finalState_of_safe fw ip calls m h
  exact ⟨h1, emitList_of_safe fw ip calls m h, fun hn => by rw [h1]; exact hn,
    by rw [h1]⟩

/-- C2 counterexample: with failures at t=0s, t=10s, t=70s and a 60-second
window (each call's `now` equal to its event time), the claim's account is
false at this very input: after the t=70s call the retained history is not
`[10, 70]` (the t=10s entry sits exactly at the cutoff `70 - 60` and the
strict filter evicts it), and with threshold 2 no block fires at t=70s
(it already fired at t=10s). -/
theorem c2_window_example_refuted :
    ¬ (lookupHist (finalState (some true) "10.0.0.1" (SecurityMonitor.init 3 60 [])
          ([(0, 0), (10, 10), (70, 70)] : List (Int × Int))).failures_by_ip
          "10.0.0.1" = [10, 70] ∧
       emitList (some true) "10.0.0.1" (SecurityMonitor.init 3 60 [])
          ([(0, 0), (10, 10), (70, 70)] : List (Int × Int)) =
          [false, false, false] ∧
       emitList (some true) "10.0.0.1" (SecurityMonitor.init 2 60 [])
          ([(0, 0), (10, 10), (70, 70)] : List (Int × Int)) =
          [false, false, true]) := by
  decide

/-- C2 amended: with failures at t=0s, t=10s, t=70s and window 60s, after
the t=70s call only the t=70s entry remains (the t=10s entry is exactly at
the boundary and is evicted by the strict cutoff); with threshold 3 no
block occurs; with threshold 2 the block occurs already at the t=10s call,
the history is cleared, and the t=70s call is a no-op. -/
theorem c2_window_example_amended :
    lookupHist (finalState (some true) "10.0.0.1" (SecurityMonitor.init 3 60 [])
        ([(0, 0), (10, 10), (70, 70)] : List (Int × Int))).failures_by_ip
        "10.0.0.1" = [70] ∧
    emitList (some true) "10.0.0.1" (SecurityMonitor.init 3 60 [])
        ([(0, 0), (10, 10), (70, 70)] : List (Int × Int)) =
        [false, false, false] ∧
    emitList (some true) "10.0.0.1" (SecurityMonitor.init 2 60 [])
        ([(0, 0), (10, 10), (70, 70)] : List (Int × Int)) =
        [false, true, false] ∧
    lookupHist (finalState (some true) "10.0.0.1" (SecurityMonitor.init 2 60 [])
        ([(0, 0), (10, 10), (70, 70)] : List (Int × Int))).failures_by_ip
        "10.0.0.1" = [] := by
  decide

/-- C6 counterexample: the source performs no threshold/window validation
at all.  Constructed with threshold 0 — not strictly positive — the
monitor runs normally: the very first failure from a fresh address
immediately fires a block decision and blocks the address, instead of a
configuration error preventing monitoring from starting. -/
theorem c6_invalid_config_runs :
    (record_failure (SecurityMonitor.init 0 60 []) (some true)
      "203.0.113.9" 100 100).2 = true ∧
    "203.0.113.9" ∈ (record_failure (SecurityMonitor.init 0 60 []) (some true)
      "203.0.113.9" 100 100).1.blocked_ips := by
  decide

/-- C6 amended: neither `SecurityMonitor.__init__` nor `start_monitoring`
validates the configuration: any integer threshold and window — including
non-positive ones — are stored unchanged and monitoring proceeds; with a
threshold ≤ 0 every first failure from a non-whitelisted fresh address
immediately triggers a block. -/
theorem c6_no_validation (th w : Int) (safe : List String) (ip : String)
    (ts now : Int) (hth : th ≤ 0) (hs : ip ∉ safe) :
    (SecurityMonitor.init th w safe).failure_threshold = th ∧
    (SecurityMonitor.init th w safe).time_window = w ∧
    (record_failure (SecurityMonitor.init th w safe) (some true) ip ts now).2 = true ∧
    ip ∈ (record_failure (SecurityMonitor.init th w safe) (some true)
      ip ts now).1.blocked_ips := by
  have hb : ip ∉ (SecurityMonitor.init th w safe).blocked_ips := by
    simp [SecurityMonitor.init]
  have hs' : ip ∉ (SecurityMonitor.init th w safe).safe_ips := hs
  have hlen : (SecurityMonitor.init th w safe).failure_threshold ≤
      ((prunedHist (SecurityMonitor.init th w safe) ip ts now).length : Int) := by
    have hnn : (0 : Int) ≤
        ((prunedHist (SecurityMonitor.init th w safe) ip ts now).length : Int) :=
      Int.natCast_nonneg _
    calc (SecurityMonitor.init th w safe).failure_threshold = th := rfl
      _ ≤ 0 := hth
      _ ≤ _ := hnn
  have he := record_failure_emit_true (SecurityMonitor.init th w safe) (some true)
    ip ts now hs' hb hlen
  exact ⟨rfl, rfl, he,
    (record_failure_blocked_iff (SecurityMonitor.init th w safe) ip ts now hs' hb).2 he⟩

theorem c6_no_validation_witness :
    ((-2 : Int) ≤ 0) ∧ ("203.0.113.4" ∉ ([] : List String)) ∧
    ((SecurityMonitor.init (-2) 60 []).failure_threshold = -2 ∧
     (SecurityMonitor.init (-2) 60 []).time_window = 60 ∧
     (record_failure (SecurityMonitor.init (-2) 60 []) (some true)
        "203.0.113.4" 5 5).2 = true ∧
     "203.0.113.4" ∈ (record_failure (SecurityMonitor.init (-2) 60 []) (some true)
        "203.0.113.4" 5 5).1.blocked_ips) :=
  ⟨by decide, by decide,
   c6_no_validation (-2) 60 [] "203.0.113.4" 5 5 (by decide) (by decide)⟩

/-- C7: When the firewall's `block_ip` returns failure after the threshold
is reached, the decision still fires but the address is not added to the
blocked set and its pruned history is kept (not cleared), so any later
call whose retained count again reaches the threshold fires the block
attempt again — retry purely by recurrence. -/
theorem c7_block_failure_keeps_state (m : SecurityMonitor) (ip : String)
    (ts now : Int) (hs : ip ∉ m.safe_ips) (hb : ip ∉ m.blocked_ips)
    (hth : m.failure_threshold ≤ ((prunedHist m ip ts now).length : Int)) :
    (record_failure m (some false) ip ts now).2 = true ∧
    ip ∉ (record_failure m (some false) ip ts now).1.blocked_ips ∧
    lookupHist (record_failure m (some false) ip ts now).1.failures_by_ip ip =
      prunedHist m ip ts now ∧
    (∀ (fw2 : Option Bool) (ts2 now2 : Int),
      (record_failure m (some false) ip ts now).1.failure_threshold ≤
        ((prunedHist (record_failure m (some false) ip ts now).1 ip ts2 now2).length : Int) →
      (record_failure (record_failure m (some false) ip ts now).1 fw2 ip ts2 now2).2 =
        true) := by
  have hstep := record_failure_failed_state m ip ts now hs hb hth
  refine ⟨by rw [hstep], by rw [hstep]; exact hb, ?_, ?_⟩
  · rw [hstep]
    exact lookupHist_setHist m.failures_by_ip ip (prunedHist m ip ts now)
  · intro fw2 ts2 now2 h2
    refine record_failure_emit_true _ fw2 ip ts2 now2 ?_ ?_ h2
    · rw [hstep]; exact hs
    · rw [hstep]; exact hb

theorem c7_block_failure_keeps_state_witness :
    ("203.0.113.8" ∉ (SecurityMonitor.init 1 60 []).safe_ips) ∧
    ("203.0.113.8" ∉ (SecurityMonitor.init 1 60 []).blocked_ips) ∧
    ((SecurityMonitor.init 1 60 []).failure_threshold ≤
      ((prunedHist (SecurityMonitor.init 1 60 []) "203.0.113.8" 10 10).length : Int)) ∧
    ((record_failure (SecurityMonitor.init 1 60 []) (some false) "203.0.113.8" 10 10).2 =
      true ∧
     "203.0.113.8" ∉
       (record_failure (SecurityMonitor.init 1 60 []) (some false)
         "203.0.113.8" 10 10).1.blocked_ips ∧
     lookupHist
        (record_failure (SecurityMonitor.init 1 60 []) (some false)
          "203.0.113.8" 10 10).1.failures_by_ip "203.0.113.8" =
       prunedHist (SecurityMonitor.init 1 60 []) "203.0.113.8" 10 10 ∧
     (∀ (fw2 : Option Bool) (ts2 now2 : Int),
       (record_failure (SecurityMonitor.init 1 60 []) (some false)
           "203.0.113.8" 10 10).1.failure_threshold ≤
         ((prunedHist
             (record_failure (SecurityMonitor.init 1 60 []) (some false)
               "203.0.113.8" 10 10).1 "203.0.113.8" ts2 now2).length : Int) →
       (record_failure
           (record_failure (SecurityMonitor.init 1 60 []) (some false)
             "203.0.113.8" 10 10).1 fw2 "203.0.113.8" ts2 now2).2 = true)) :=
  ⟨by decide, by decide, by decide,
   c7_block_failure_keeps_state (SecurityMonitor.init 1 60 []) "203.0.113.8" 10 10
     (by decide) (by decide) (by decide)⟩

/-- C10: A failure whose timestamp is not strictly newer than
`now - window` is appended and immediately pruned: for a fresh address
(empty retained history) and a positive threshold it leaves the retained
history empty, fires no decision and blocks nothing. -/
theorem c10_stale_failure_inert (m : SecurityMonitor) (fw : Option Bool)
    (ip : String) (ts now : Int) (hs : ip ∉ m.safe_ips) (hb : ip ∉ m.blocked_ips)
    (hfresh : lookupHist m.failures_by_ip ip = [])
    (hstale : ts ≤ now - m.time_window) (hpos : 0 < m.failure_threshold) :
    record_failure m fw ip ts now =
      ({ m with failures_by_ip := setHist m.failures_by_ip ip [] }, false) ∧
    lookupHist (record_failure m fw ip ts now).1.failures_by_ip ip = [] ∧
    ip ∉ (record_failure m fw ip ts now).1.blocked_ips := by
  have hhist : prunedHist m ip ts now = [] := by
    have hcut : ¬ (now - m.time_window < ts) := by omega
    simp [prunedHist, hfresh, hcut]
  have hth : ¬ m.failure_threshold ≤ ((prunedHist m ip ts now).length : Int) := by
    rw [hhist]
    simp only [List.length_nil, Nat.cast_zero]
    omega
  have hstep := record_failure_of_below m fw ip ts now hs hb hth
  rw [hhist] at hstep
  refine ⟨hstep, ?_, ?_⟩
  · rw [hstep]
    exact lookupHist_setHist m.failures_by_ip ip []
  · rw [hstep]
    exact hb

theorem c10_stale_failure_inert_witness :
    ("203.0.113.6" ∉ (SecurityMonitor.init 3 60 []).safe_ips) ∧
    ("203.0.113.6" ∉ (SecurityMonitor.init 3 60 []).blocked_ips) ∧
    (lookupHist (SecurityMonitor.init 3 60 []).failures_by_ip "203.0.113.6" = []) ∧
    ((40 : Int) ≤ 100 - (SecurityMonitor.init 3 60 []).time_window) ∧
    ((0 : Int) < (SecurityMonitor.init 3 60 []).failure_threshold) ∧
    (record_failure (SecurityMonitor.init 3 60 []) (some true) "203.0.113.6" 40 100 =
      ({ SecurityMonitor.init 3 60 [] with
          failures_by_ip := setHist (SecurityMonitor.init 3 60 []).failures_by_ip
            "203.0.113.6" [] }, false) ∧
     lookupHist (record_failure (SecurityMonitor.init 3 60 []) (some true)
        "203.0.113.6" 40 100).1.failures_by_ip "203.0.113.6" = [] ∧
     "203.0.113.6" ∉
       (record_failure (SecurityMonitor.init 3 60 []) (some true)
         "203.0.113.6" 40 100).1.blocked_ips) :=
  ⟨by decide, by decide, by decide, by decide, by decide,
   c10_stale_failure_inert (SecurityMonitor.init 3 60 []) (some true) "203.0.113.6"
     40 100 (by decide) (by decide) (by decide) (by decide) (by decide)⟩

theorem c4_whitelist_immune_witness :
    ("192.168.1.100" ∈ (SecurityMonitor.init 2 60 ["192.168.1.100"]).safe_ips) ∧
    (finalState (some true) "192.168.1.100" (SecurityMonitor.init 2 60 ["192.168.1.100"])
        ([(0, 0), (1, 1), (2, 2), (3, 3)] : List (Int × Int)) =
      SecurityMonitor.init 2 60 ["192.168.1.100"] ∧
     emitList (some true) "192.168.1.100" (SecurityMonitor.init 2 60 ["192.168.1.100"])
        ([(0, 0), (1, 1), (2, 2), (3, 3)] : List (Int × Int)) =
      List.replicate ([(0, 0), (1, 1), (2, 2), (3, 3)] : List (Int × Int)).length false ∧
     ("192.168.1.100" ∉ (SecurityMonitor.init 2 60 ["192.168.1.100"]).blocked_ips →
       "192.168.1.100" ∉
         (finalState (some true) "192.168.1.100" (SecurityMonitor.init 2 60 ["192.168.1.100"])
           ([(0, 0), (1, 1), (2, 2), (3, 3)] : List (Int × Int))).blocked_ips) ∧
     lookupHist
        (finalState (some true) "192.168.1.100" (SecurityMonitor.init 2 60 ["192.168.1.100"])
          ([(0, 0), (1, 1), (2, 2), (3, 3)] : List (Int × Int))).failures_by_ip
        "192.168.1.100" =
      lookupHist (SecurityMonitor.init 2 60 ["192.168.1.100"]).failures_by_ip
        "192.168.1.100") :=
  ⟨by decide,
   c4_whitelist_immune (SecurityMonitor.init 2 60 ["192.168.1.100"]) (some true)
     "192.168.1.100" ([(0, 0), (1, 1), (2, 2), (3, 3)] : List (Int × Int)) (by decide)⟩

/-! ### Firewall claim theorems -/

/-- C8: With the iptables backend, blocking the same address twice runs
the add-rule command exactly once: the first call (whose add succeeds)
installs the rule, and the second call finds the rule already present,
skips re-adding it (zero add invocations) and still returns success —
whatever exit status a second add would have had. -/
theorem c8_iptables_idempotent (rules : List String) (ip : String)
    (addOk2 : Bool) (h : ip ∉ rules) :
    (blockWithIptables rules true ip).2.2 = 1 ∧
    ip ∈ (blockWithIptables rules true ip).1 ∧
    (blockWithIptables (blockWithIptables rules true ip).1 addOk2 ip).2.1 = true ∧
    (blockWithIptables (blockWithIptables rules true ip).1 addOk2 ip).2.2 = 0 ∧
    (blockWithIptables rules true ip).2.2 +
      (blockWithIptables (blockWithIptables rules true ip).1 addOk2 ip).2.2 = 1 := by
  simp [blockWithIptables, h]

theorem c8_iptables_idempotent_witness :
    ("203.0.113.2" ∉ (["198.51.100.9"] : List String)) ∧
    ((blockWithIptables ["198.51.100.9"] true "203.0.113.2").2.2 = 1 ∧
     "203.0.113.2" ∈ (blockWithIptables ["198.51.100.9"] true "203.0.113.2").1 ∧
     (blockWithIptables (blockWithIptables ["198.51.100.9"] true "203.0.113.2").1
        false "203.0.113.2").2.1 = true ∧
     (blockWithIptables (blockWithIptables ["198.51.100.9"] true "203.0.113.2").1
        false "203.0.113.2").2.2 = 0 ∧
     (blockWithIptables ["198.51.100.9"] true "203.0.113.2").2.2 +
       (blockWithIptables (blockWithIptables ["198.51.100.9"] true "203.0.113.2").1
         false "203.0.113.2").2.2 = 1) :=
  ⟨by decide,
   c8_iptables_idempotent ["198.51.100.9"] "203.0.113.2" false (by decide)⟩

/-- C9: In simulation mode `block_ip` returns success for every address
and performs zero external invocations (no firewall command runs and the
installed rule set is untouched), regardless of which backend was
detected and of what any command would have reported. -/
theorem c9_simulation_no_side_effects (firewall_system : String)
    (rules : List String) (cmdOk : Bool) (ip : String) :
    block_ip true firewall_system rules cmdOk ip = (rules, true, 0) := by
  simp [block_ip]

/-! ### Timestamp claim theorem -/

/-- C5 counterexample: the year is not always decremented when the
injected timestamp lies more than one day in the future.  A "Feb 29
10:00:00" line parsed while `now` is January 1 of the leap year 2024
yields 2024-02-29, more than one day ahead of `now`; the claim asserts
the year is decremented, but `replace(year=2023)` raises `ValueError`
(2023-02-29 does not exist), the handler at lines 272-273 swallows it as
a parse warning, and no timestamp at all is produced. -/
theorem c5_feb29_not_decremented :
    toSecs (⟨2024, 1, 1, 0, 0, 0⟩ : PyDateTime) + 86400 <
      toSecs (⟨2024, 2, 29, 10, 0, 0⟩ : PyDateTime) ∧
    resolveSyslogTimestamp (⟨2024, 1, 1, 0, 0, 0⟩ : PyDateTime) 2 29 10 0 0 ≠
      some (⟨2024 - 1, 2, 29, 10, 0, 0⟩ : PyDateTime) ∧
    resolveSyslogTimestamp (⟨2024, 1, 1, 0, 0, 0⟩ : PyDateTime) 2 29 10 0 0 =
      none := by
  refine ⟨by decide, by decide, by decide⟩

/-- C5 amended: parsing a syslog-style (year-less) timestamp injects the
current year; when the result lies more than one day in the future
relative to `now`, the year is decremented by one provided the date
exists in the previous year, and otherwise (a parsed Feb 29 of a leap
current year) the `replace` raises `ValueError`, caught as a parse
warning with no event produced; in particular "Dec 31 23:59:59" parsed
while `now` is any time on January 1 of the following year resolves to
December 31 of the previous year. -/
theorem c5_year_rollover (y h mi s : Nat) (hh : h < 24) (hm : mi < 60)
    (hs : s < 60) :
    (∀ (now : PyDateTime) (mo d ho mn se : Nat),
      (resolveSyslogTimestamp now mo d ho mn se =
          some (⟨now.year, mo, d, ho, mn, se⟩ : PyDateTime) ∧
        toSecs (⟨now.year, mo, d, ho, mn, se⟩ : PyDateTime) ≤ toSecs now + 86400) ∨
      (resolveSyslogTimestamp now mo d ho mn se =
          some (⟨now.year - 1, mo, d, ho, mn, se⟩ : PyDateTime) ∧
        toSecs now + 86400 < toSecs (⟨now.year, mo, d, ho, mn, se⟩ : PyDateTime) ∧
        dateValid (now.year - 1) mo d = true) ∨
      (resolveSyslogTimestamp now mo d ho mn se = none ∧
        toSecs now + 86400 < toSecs (⟨now.year, mo, d, ho, mn, se⟩ : PyDateTime) ∧
        dateValid (now.year - 1) mo d = false)) ∧
    resolveSyslogTimestamp (⟨y + 1, 1, 1, h, mi, s⟩ : PyDateTime) 12 31 23 59 59 =
      some (⟨y, 12, 31, 23, 59, 59⟩ : PyDateTime) := by
  constructor
  · intro now mo d ho mn se
    by_cases hc : toSecs now + 86400 <
        toSecs (⟨now.year, mo, d, ho, mn, se⟩ : PyDateTime)
    · by_cases hv : dateValid (now.year - 1) mo d = true
      · right; left
        exact ⟨by simp [resolveSyslogTimestamp, hc, hv], hc, hv⟩
      · have hv' : dateValid (now.year - 1) mo d = false := by
          cases hdv : dateValid (now.year - 1) mo d
          · rfl
          · exact absurd hdv hv
        right; right
        exact ⟨by simp [resolveSyslogTimestamp, hc, hv'], hc, hv'⟩
    · left
      exact ⟨by simp [resolveSyslogTimestamp, hc], by omega⟩
  · have key : toSecs (⟨y + 1, 1, 1, h, mi, s⟩ : PyDateTime) + 86400 <
        toSecs (⟨y + 1, 12, 31, 23, 59, 59⟩ : PyDateTime) := by
      cases hleap : isLeapYear (y + 1) <;>
        simp [toSecs, cumDaysBeforeMonth, daysBeforeYear, hleap] <;> omega
    have hval : dateValid y 12 31 = true := by
      simp [dateValid, daysInMonth]
    simp [resolveSyslogTimestamp, key, hval]

theorem c5_year_rollover_witness :
    (0 < 24 ∧ 0 < 60 ∧ 5 < 60) ∧
    ((∀ (now : PyDateTime) (mo d ho mn se : Nat),
      (resolveSyslogTimestamp now mo d ho mn se =
          some (⟨now.year, mo, d, ho, mn, se⟩ : PyDateTime) ∧
        toSecs (⟨now.year, mo, d, ho, mn, se⟩ : PyDateTime) ≤ toSecs now + 86400) ∨
      (resolveSyslogTimestamp now mo d ho mn se =
          some (⟨now.year - 1, mo, d, ho, mn, se⟩ : PyDateTime) ∧
        toSecs now + 86400 < toSecs (⟨now.year, mo, d, ho, mn, se⟩ : PyDateTime) ∧
        dateValid (now.year - 1) mo d = true) ∨
      (resolveSyslogTimestamp now mo d ho mn se = none ∧
        toSecs now + 86400 < toSecs (⟨now.year, mo, d, ho, mn, se⟩ : PyDateTime) ∧
        dateValid (now.year - 1) mo d = false)) ∧
     resolveSyslogTimestamp (⟨2023 + 1, 1, 1, 0, 0, 5⟩ : PyDateTime) 12 31 23 59 59 =
       some (⟨2023, 12, 31, 23, 59, 59⟩ : PyDateTime)) :=
  ⟨⟨by decide, by decide, by decide⟩,
   c5_year_rollover 2023 0 0 5 (by decide) (by decide) (by decide)⟩
